import Mathlib

/-!
Verification of the browser-side controller in `src/static/script.js`
(Legal-Document-Parser): the upload/analysis lifecycle state machine and
the result-rendering contract.

The JavaScript is shallowly embedded: DOM mutations become updates of an
explicit `DomState`, the rendered clause markup becomes a `Node` tree,
the submit handler becomes a pure function from the fetch outcome to a
trace of presenter operations plus the final `DomState`.
-/

namespace LegalDocParser

/-- A rendered DOM element: `document.createElement` + `className` +
`textContent` + appended children, as built by `createClauseElement`. -/
inductive Node where
  | elem (className : String) (text : String) (children : List Node)

/-- Content of the `clausesContainer` element: either raw markup assigned
through `innerHTML` (the cleared state `""` or the placeholder paragraph),
or a list of appended clause-group nodes. -/
inductive ClausesContent where
  | html (s : String)
  | groups (gs : List Node)

/-- The visibility and text state of every DOM element the script mutates.
`formVisible` models the upload form region, which the script never hides.
`analyzeBtnDisabled` is the `disabled` property of the submit control. -/
structure DomState where
  formVisible : Bool
  loadingVisible : Bool
  analyzeBtnDisabled : Bool
  errorVisible : Bool
  errorText : String
  resultsVisible : Bool
  resultFileName : String
  totalClausesText : String
  clausesContent : ClausesContent

/-- The page as loaded: only the upload form region is visible. -/
def initialDom : DomState :=
  { formVisible := true
    loadingVisible := false
    analyzeBtnDisabled := false
    errorVisible := false
    errorText := ""
    resultsVisible := false
    resultFileName := ""
    totalClausesText := ""
    clausesContent := .html "" }

/-- A parsed JSON response body.  `clauses` is an association list in the
iteration order of `Object.entries`; `none` models the field being absent
(or `null`), which makes `Object.entries(data.clauses)` throw.  `error`
is the optional `error` field of failure bodies (`none` = absent). -/
structure ResponseData where
  filename : String
  total_clauses_found : Nat
  clauses : Option (List (String × List String))
  error : Option String
deriving DecidableEq, Repr

/-- JavaScript `v || fallback` on an optional string: the fallback is used
when the value is absent or the empty string (both falsy). -/
def jsStringOr (v : Option String) (fallback : String) : String :=
  match v with
  | none => fallback
  | some s => if s.isEmpty then fallback else s

/-- Embeds `clauseType.replace(/_/g, ' ')`: every underscore becomes a space. -/
def replaceUnderscores (s : String) : String :=
  s.map fun c => if c = '_' then ' ' else c

/-- Embeds `createClauseElement(clauseType, sentences)`, script.js:172-207. -/
def createClauseElement (clauseType : String) (sentences : List String) : Node :=
  .elem "clause-category" ""
    [ .elem "clause-header" ""
        [ .elem "clause-title" (replaceUnderscores clauseType) []
        , .elem "clause-count" (toString sentences.length ++ " found") [] ]
    , .elem "clause-content" ""
        (sentences.map fun s => .elem "clause-item" s []) ]

/-- The fixed placeholder markup assigned when `total_clauses_found === 0`
(script.js:156). -/
def noClausesPlaceholder : String :=
  "<p style=\"text-align: center; color: #718096; padding: 40px;\">No standard contract clauses were identified in this document.</p>"

/-- Models the message of the `TypeError` the JavaScript runtime throws
when `Object.entries` is applied to `undefined` or `null` (reached when
`data.clauses` is absent and `total_clauses_found` is not 0). -/
def objectEntriesTypeErrorMsg : String :=
  "Cannot convert undefined or null to object"

/-- Embeds `displayResults(data)`, script.js:146-170, as a state transformer.
Returns the DOM state after all writes that actually executed, paired with
`some msg` when the function threw (propagating `msg` to the caller) and
`none` when it ran to completion.  The summary fields are written and the
container cleared first; the `total_clauses_found === 0` branch assigns
the placeholder; otherwise `Object.entries(data.clauses)` is iterated
(throwing if `clauses` is absent); only on completion does the results
section become visible. -/
def displayResults (data : ResponseData) (dom : DomState) :
    DomState × Option String :=
  let dom := { dom with
    resultFileName := data.filename
    totalClausesText := toString data.total_clauses_found
    clausesContent := .html "" }
  if data.total_clauses_found = 0 then
    ({ dom with clausesContent := .html noClausesPlaceholder
                resultsVisible := true }, none)
  else
    match data.clauses with
    | none => (dom, some objectEntriesTypeErrorMsg)
    | some cs =>
      ({ dom with
          clausesContent := .groups (cs.map fun p => createClauseElement p.1 p.2)
          resultsVisible := true }, none)

/-- Embeds `showLoading()`: spinner shown, submit control disabled (script.js:123-126). -/
def showLoading (d : DomState) : DomState :=
  { d with loadingVisible := true, analyzeBtnDisabled := true }

/-- Embeds `hideLoading()`: spinner hidden, submit control enabled (script.js:128-131). -/
def hideLoading (d : DomState) : DomState :=
  { d with loadingVisible := false, analyzeBtnDisabled := false }

/-- Embeds `showError(message)`, script.js:133-136. -/
def showError (msg : String) (d : DomState) : DomState :=
  { d with errorText := msg, errorVisible := true }

/-- Embeds `hideError()`, script.js:138-140. -/
def hideError (d : DomState) : DomState :=
  { d with errorVisible := false }

/-- Embeds `hideResults()`, script.js:142-144. -/
def hideResults (d : DomState) : DomState :=
  { d with resultsVisible := false }

/-- One observable step of the submit handler, recorded in order. -/
inductive UIOp where
  | showLoading
  | hideLoading
  | showError (msg : String)
  | hideError
  | hideResults
  | fetchUpload
  | renderResults
deriving DecidableEq, Repr

/-- How the awaited part of the submission resolves.
`rejected m`: `fetch` itself rejects (network failure) with an error whose
`.message` is `m` (`none` models an absent/empty message).
`jsonRejected m`: a response arrived but `response.json()` rejects.
`resolved ok data`: a response with status-ok flag `ok` whose body parsed
to `data`. -/
inductive FetchOutcome where
  | rejected (m : Option String)
  | jsonRejected (m : Option String)
  | resolved (ok : Bool) (data : ResponseData)
deriving DecidableEq, Repr

/-- The validation message shown when no file is selected (script.js:87). -/
def validationMsg : String := "Please select a PDF file first"

/-- The generic fallback of the catch clause (script.js:117). -/
def genericErrMsg : String := "An error occurred while processing the file"

/-- The fallback used when a non-ok body carries no truthy `error` field
(script.js:110). -/
def uploadFailedMsg : String := "Upload failed"

/-- The submit handler (script.js:82-121) as a pure function: given whether
a file is selected and how the request resolves, it yields the ordered
trace of observable operations and the final DOM state.  The structure
mirrors the source: validation guard, then `showLoading(); hideError();
hideResults();`, the `fetch`, the `try/catch` dispatch, and the
`finally { hideLoading(); }`. -/
def submitHandler (hasFile : Bool) (outcome : FetchOutcome) (d : DomState) :
    List UIOp × DomState :=
  if !hasFile then
    ([.showError validationMsg], showError validationMsg d)
  else
    let d1 := hideResults (hideError (showLoading d))
    let pre : List UIOp := [.showLoading, .hideError, .hideResults, .fetchUpload]
    match outcome with
    | .rejected m =>
      let msg := jsStringOr m genericErrMsg
      (pre ++ [.showError msg, .hideLoading], hideLoading (showError msg d1))
    | .jsonRejected m =>
      let msg := jsStringOr m genericErrMsg
      (pre ++ [.showError msg, .hideLoading], hideLoading (showError msg d1))
    | .resolved ok data =>
      if !ok then
        let thrown := jsStringOr data.error uploadFailedMsg
        let msg := jsStringOr (some thrown) genericErrMsg
        (pre ++ [.showError msg, .hideLoading], hideLoading (showError msg d1))
      else
        match displayResults data d1 with
        | (d2, none) =>
          (pre ++ [.renderResults, .hideLoading], hideLoading d2)
        | (d2, some em) =>
          let msg := jsStringOr (some em) genericErrMsg
          (pre ++ [.renderResults, .showError msg, .hideLoading],
            hideLoading (showError msg d2))

/-- The clause groups currently rendered in the container (raw markup,
including the cleared state and the placeholder, contains no group nodes). -/
def renderedGroups : ClausesContent → List Node
  | .html _ => []
  | .groups gs => gs

def nodeClass : Node → String
  | .elem c _ _ => c

def nodeText : Node → String
  | .elem _ t _ => t

def nodeChildren : Node → List Node
  | .elem _ _ cs => cs

/-- The texts of the `clause-item` children inside a clause group's
`clause-content` section, in rendered order. -/
def groupItemTexts (g : Node) : List String :=
  (((nodeChildren g).filter fun n => nodeClass n = "clause-content").map
    fun c => (nodeChildren c).map nodeText).flatten

/-- The texts of the `clause-count` badges inside a clause group's
`clause-header` section. -/
def badgeTexts (g : Node) : List String :=
  (((nodeChildren g).filter fun n => nodeClass n = "clause-header").map
    fun h => ((nodeChildren h).filter fun n => nodeClass n = "clause-count").map
      nodeText).flatten

/-- Number of the four presentation regions (idle form, loading indicator,
error banner, results panel) currently visible. -/
def visibleRegionCount (d : DomState) : Nat :=
  (cond d.formVisible 1 0) + (cond d.loadingVisible 1 0) +
    (cond d.errorVisible 1 0) + (cond d.resultsVisible 1 0)

/-- Number of the three status regions (loading indicator, error banner,
results panel) currently visible — the regions the script actually toggles. -/
def visibleStatusRegionCount (d : DomState) : Nat :=
  (cond d.loadingVisible 1 0) + (cond d.errorVisible 1 0) +
    (cond d.resultsVisible 1 0)

/-! ## Helper lemmas -/

theorem jsStringOr_none (f : String) : jsStringOr none f = f := rfl

theorem jsStringOr_some_empty (f : String) : jsStringOr (some "") f = f := rfl

theorem jsStringOr_some_uploadFailedMsg (f : String) :
    jsStringOr (some uploadFailedMsg) f = uploadFailedMsg := rfl

theorem jsStringOr_some_objectEntriesTypeErrorMsg (f : String) :
    jsStringOr (some objectEntriesTypeErrorMsg) f
      = objectEntriesTypeErrorMsg := rfl

theorem groupItemTexts_createClauseElement (t : String) (ss : List String) :
    groupItemTexts (createClauseElement t ss) = ss := by
  simp [groupItemTexts, createClauseElement, nodeChildren, nodeClass, nodeText,
    Function.comp_def]

theorem badgeTexts_createClauseElement (t : String) (ss : List String) :
    badgeTexts (createClauseElement t ss) = [toString ss.length ++ " found"] := by
  simp [badgeTexts, createClauseElement, nodeChildren, nodeClass, nodeText]

/-! ## Claims about the Result Renderer -/

/-- C1: for every AnalysisResult with `total_clauses_found > 0` (and a
clauses map present), `displayResults` renders exactly one clause group per
key of the clauses map, in the map's iteration order, and each group's
rendered items are exactly that key's sentences in input order. -/
theorem displayResults_groups_match_clauses (data : ResponseData)
    (dom : DomState) (cs : List (String × List String))
    (hpos : 0 < data.total_clauses_found) (hcs : data.clauses = some cs) :
    renderedGroups (displayResults data dom).1.clausesContent
      = cs.map (fun p => createClauseElement p.1 p.2) ∧
    (renderedGroups (displayResults data dom).1.clausesContent).length
      = cs.length ∧
    (renderedGroups (displayResults data dom).1.clausesContent).map
      groupItemTexts = cs.map Prod.snd := by
  have hne : data.total_clauses_found ≠ 0 := Nat.pos_iff_ne_zero.mp hpos
  refine ⟨?_, ?_, ?_⟩ <;>
    simp [displayResults, renderedGroups, hne, hcs, Function.comp,
      groupItemTexts_createClauseElement]

/-- Witness for C1 at the spec's Scenario A input. -/
theorem displayResults_groups_match_clauses_witness :
    (0 : Nat) < 2 ∧
    (renderedGroups (displayResults
        ⟨"contract.pdf", 2,
          some [("termination_clause",
                  ["Either party may terminate with 30 days notice."]),
                ("confidentiality",
                  ["All data shall remain confidential."])], none⟩
        initialDom).1.clausesContent).map groupItemTexts
      = [["Either party may terminate with 30 days notice."],
         ["All data shall remain confidential."]] :=
  ⟨by decide,
    ((displayResults_groups_match_clauses _ initialDom _ (by decide)
      rfl).2.2).trans (by rfl)⟩

/-- C2: for every AnalysisResult with `total_clauses_found == 0`,
`displayResults` renders exactly the fixed placeholder markup and zero
clause groups, whatever the clauses map holds. -/
theorem displayResults_zero_total_placeholder (data : ResponseData)
    (dom : DomState) (h : data.total_clauses_found = 0) :
    (displayResults data dom).1.clausesContent = .html noClausesPlaceholder ∧
    renderedGroups (displayResults data dom).1.clausesContent = [] ∧
    (displayResults data dom).2 = none := by
  refine ⟨?_, ?_, ?_⟩ <;> simp [displayResults, renderedGroups, h]

/-- Witness for C2 at a malformed-but-zero input: `total_clauses_found = 0`
with a non-empty clauses map. -/
theorem displayResults_zero_total_placeholder_witness :
    (⟨"doc.pdf", 0, some [("termination_clause", ["x"])], none⟩ :
        ResponseData).total_clauses_found = 0 ∧
    (displayResults ⟨"doc.pdf", 0, some [("termination_clause", ["x"])], none⟩
        initialDom).1.clausesContent = .html noClausesPlaceholder ∧
    renderedGroups (displayResults
        ⟨"doc.pdf", 0, some [("termination_clause", ["x"])], none⟩
        initialDom).1.clausesContent = [] ∧
    (displayResults ⟨"doc.pdf", 0, some [("termination_clause", ["x"])], none⟩
        initialDom).2 = none :=
  ⟨rfl, displayResults_zero_total_placeholder _ initialDom rfl⟩

/-- C6: every rendered clause group carries exactly one count badge, whose
text is the number of matched sentences followed by the invariant phrase
" found" — so a group with exactly 1 sentence reads "1 found" (the
singular rendering) and a group with any other count reads with that
count's numeral (the plural rendering); the phrasing needs no further
inflection because "found" is number-invariant. -/
theorem createClauseElement_badge_text (t : String) (ss : List String) :
    badgeTexts (createClauseElement t ss)
      = [toString ss.length ++ " found"] ∧
    (ss.length = 1 →
      badgeTexts (createClauseElement t ss) = ["1 found"]) := by
  refine ⟨badgeTexts_createClauseElement t ss, fun h1 => ?_⟩
  rw [badgeTexts_createClauseElement t ss, h1]
  rfl

/-- Witness for C6: singular badge at one sentence, "2 found" at two. -/
theorem createClauseElement_badge_text_witness :
    badgeTexts (createClauseElement "termination_clause" ["a"]) = ["1 found"] ∧
    badgeTexts (createClauseElement "confidentiality" ["a", "b"])
      = ["2 found"] :=
  ⟨(createClauseElement_badge_text "termination_clause" ["a"]).2 rfl,
    (createClauseElement_badge_text "confidentiality" ["a", "b"]).1⟩

/-! ## Claims about the submit handler -/

/-- C3: for every submission that starts a request (a file is selected),
on every exit path — success, handled failure, or a failure thrown inside
the renderer — the trace contains `hideLoading` exactly once, it is the
final operation, and afterwards the loading indicator is hidden and the
submit control re-enabled. -/
theorem submit_always_clears_loading (hasFile : Bool) (outcome : FetchOutcome)
    (d : DomState) (h : hasFile = true) :
    (submitHandler hasFile outcome d).1.count .hideLoading = 1 ∧
    (submitHandler hasFile outcome d).1.getLast? = some .hideLoading ∧
    (submitHandler hasFile outcome d).2.loadingVisible = false ∧
    (submitHandler hasFile outcome d).2.analyzeBtnDisabled = false := by
  subst h
  cases outcome with
  | rejected m =>
    refine ⟨?_, ?_, rfl, rfl⟩ <;> simp [submitHandler, List.count_cons]
  | jsonRejected m =>
    refine ⟨?_, ?_, rfl, rfl⟩ <;> simp [submitHandler, List.count_cons]
  | resolved ok data =>
    cases ok with
    | false =>
      refine ⟨?_, ?_, rfl, rfl⟩ <;> simp [submitHandler, List.count_cons]
    | true =>
      rcases hdr : displayResults data
          (hideResults (hideError (showLoading d))) with ⟨d2, em⟩
      cases em with
      | none =>
        refine ⟨?_, ?_, ?_, ?_⟩ <;>
          simp [submitHandler, hdr, List.count_cons, hideLoading]
      | some em =>
        refine ⟨?_, ?_, ?_, ?_⟩ <;>
          simp [submitHandler, hdr, List.count_cons, hideLoading]

/-- Witness for C3: a successful concrete submission. -/
theorem submit_always_clears_loading_witness :
    true = true ∧
    ((submitHandler true
        (.resolved true ⟨"contract.pdf", 1, some [("a", ["s"])], none⟩)
        initialDom).1.count .hideLoading = 1 ∧
     (submitHandler true
        (.resolved true ⟨"contract.pdf", 1, some [("a", ["s"])], none⟩)
        initialDom).1.getLast? = some .hideLoading ∧
     (submitHandler true
        (.resolved true ⟨"contract.pdf", 1, some [("a", ["s"])], none⟩)
        initialDom).2.loadingVisible = false ∧
     (submitHandler true
        (.resolved true ⟨"contract.pdf", 1, some [("a", ["s"])], none⟩)
        initialDom).2.analyzeBtnDisabled = false) :=
  ⟨rfl, submit_always_clears_loading true _ initialDom rfl⟩

/-- C4: for every submission with no file selected, the handler performs
only `showError "Please select a PDF file first"`: no fetch is issued, the
loading state is never entered (spinner and results visibility are exactly
as before, the submit control untouched), and the validation message is
shown. -/
theorem submit_no_file_validates_locally (outcome : FetchOutcome)
    (d : DomState) :
    (submitHandler false outcome d).1 = [.showError validationMsg] ∧
    UIOp.fetchUpload ∉ (submitHandler false outcome d).1 ∧
    UIOp.showLoading ∉ (submitHandler false outcome d).1 ∧
    (submitHandler false outcome d).2 = showError validationMsg d ∧
    (submitHandler false outcome d).2.loadingVisible = d.loadingVisible ∧
    (submitHandler false outcome d).2.analyzeBtnDisabled
      = d.analyzeBtnDisabled ∧
    (submitHandler false outcome d).2.resultsVisible = d.resultsVisible ∧
    (submitHandler false outcome d).2.errorText = validationMsg ∧
    (submitHandler false outcome d).2.errorVisible = true := by
  refine ⟨rfl, ?_, ?_, rfl, rfl, rfl, rfl, rfl, rfl⟩ <;>
    simp [submitHandler]

/-- C5 counterexample: a resolved non-success response whose body carries
the `error` field with the empty string — the field is present, yet the
banner shows "Upload failed", not the field's value verbatim, because the
code tests JavaScript truthiness (`data.error || 'Upload failed'`), not
presence. -/
theorem nonOk_empty_error_field_not_verbatim :
    (⟨"contract.pdf", 0, some [], some ""⟩ : ResponseData).error = some "" ∧
    (submitHandler true
        (.resolved false ⟨"contract.pdf", 0, some [], some ""⟩)
        initialDom).2.errorText = uploadFailedMsg ∧
    uploadFailedMsg ≠ "" :=
  ⟨rfl, rfl, by decide⟩

/-- C5 amended: on a resolved non-success response, the banner shows the
body's `error` field verbatim when that field is present *and non-empty*,
and the generic "Upload failed" when it is absent or the empty string. -/
theorem nonOk_error_message_selection (data : ResponseData) (d : DomState) :
    (∀ s, data.error = some s → s.isEmpty = false →
      (submitHandler true (.resolved false data) d).2.errorText = s) ∧
    ((data.error = none ∨ data.error = some "") →
      (submitHandler true (.resolved false data) d).2.errorText
        = uploadFailedMsg) ∧
    (submitHandler true (.resolved false data) d).2.errorVisible = true := by
  refine ⟨fun s hs hne => ?_, fun habs => ?_, ?_⟩
  · simp [submitHandler, jsStringOr, hs, hne, hideLoading, showError,
      hideResults, hideError, showLoading, uploadFailedMsg, genericErrMsg]
  · rcases habs with h | h <;>
      simp [submitHandler, h, jsStringOr_none, jsStringOr_some_empty,
        jsStringOr_some_uploadFailedMsg, hideLoading, showError,
        hideResults, hideError, showLoading]
  · simp [submitHandler, hideLoading, showError]

/-- Witness for amended C5 at the spec's Scenario C input. -/
theorem nonOk_error_message_selection_witness :
    (⟨"contract.pdf", 0, some [], some "file is not a valid PDF"⟩ :
        ResponseData).error = some "file is not a valid PDF" ∧
    (submitHandler true
        (.resolved false
          ⟨"contract.pdf", 0, some [], some "file is not a valid PDF"⟩)
        initialDom).2.errorText = "file is not a valid PDF" :=
  ⟨rfl,
    (nonOk_error_message_selection _ initialDom).1
      "file is not a valid PDF" rfl rfl⟩

/-- C7 counterexample: a network rejection carrying the usual runtime
message "Failed to fetch" — the banner shows that message, not the generic
fallback, because the catch clause prefers `error.message`. -/
theorem network_rejection_shows_own_message :
    (submitHandler true (.rejected (some "Failed to fetch"))
        initialDom).2.errorText = "Failed to fetch" ∧
    "Failed to fetch" ≠ genericErrMsg :=
  ⟨rfl, by decide⟩

/-- C7 amended: on a network rejection, the banner shows the rejected
failure's own message when it has a non-empty one, and the generic
fallback "An error occurred while processing the file" only when the
failure's message is absent or empty. -/
theorem network_rejection_message_selection (m : Option String)
    (d : DomState) :
    (∀ s, m = some s → s.isEmpty = false →
      (submitHandler true (.rejected m) d).2.errorText = s) ∧
    ((m = none ∨ m = some "") →
      (submitHandler true (.rejected m) d).2.errorText = genericErrMsg) ∧
    (submitHandler true (.rejected m) d).2.errorVisible = true := by
  refine ⟨fun s hs hne => ?_, fun habs => ?_, ?_⟩
  · simp [submitHandler, jsStringOr, hs, hne, hideLoading, showError]
  · rcases habs with h | h <;>
      simp [submitHandler, h, jsStringOr_none, jsStringOr_some_empty,
        hideLoading, showError]
  · simp [submitHandler, hideLoading, showError]

/-- Witness for amended C7: a message-less rejection gets the generic
fallback. -/
theorem network_rejection_message_selection_witness :
    ((none : Option String) = none ∨ (none : Option String) = some "") ∧
    (submitHandler true (.rejected none) initialDom).2.errorText
      = genericErrMsg :=
  ⟨Or.inl rfl,
    (network_rejection_message_selection none initialDom).2.1 (Or.inl rfl)⟩

/-- The renderer `displayResults` never touches the error banner, the spinner, the
submit control, or the form region. -/
theorem displayResults_untouched_fields (data : ResponseData)
    (dom : DomState) :
    (displayResults data dom).1.errorVisible = dom.errorVisible ∧
    (displayResults data dom).1.loadingVisible = dom.loadingVisible ∧
    (displayResults data dom).1.analyzeBtnDisabled
      = dom.analyzeBtnDisabled ∧
    (displayResults data dom).1.formVisible = dom.formVisible := by
  refine ⟨?_, ?_, ?_, ?_⟩ <;>
    · simp only [displayResults]
      split
      · rfl
      · split <;> rfl

/-- The renderer `displayResults` shows the results panel exactly when it runs to
completion; when it throws, the panel's visibility is untouched. -/
theorem displayResults_resultsVisible (data : ResponseData)
    (dom : DomState) :
    ((displayResults data dom).2 = none ∧
      (displayResults data dom).1.resultsVisible = true) ∨
    ((displayResults data dom).2 = some objectEntriesTypeErrorMsg ∧
      (displayResults data dom).1.resultsVisible = dom.resultsVisible) := by
  simp only [displayResults]
  split
  · exact Or.inl ⟨rfl, rfl⟩
  · split
    · exact Or.inr ⟨rfl, rfl⟩
    · exact Or.inl ⟨rfl, rfl⟩

/-- C8 counterexample: in the operation order of a concrete valid
submission, `showLoading` comes strictly before `hideError` and
`hideResults` — the code runs `showLoading(); hideError(); hideResults();`
in that order, so hide-prior-state does not precede show-loading. -/
theorem showLoading_precedes_hiding_prior_state :
    UIOp.showLoading ∈ (submitHandler true
        (.resolved true ⟨"contract.pdf", 1, some [("a", ["s"])], none⟩)
        initialDom).1 ∧
    UIOp.hideError ∈ (submitHandler true
        (.resolved true ⟨"contract.pdf", 1, some [("a", ["s"])], none⟩)
        initialDom).1 ∧
    UIOp.hideResults ∈ (submitHandler true
        (.resolved true ⟨"contract.pdf", 1, some [("a", ["s"])], none⟩)
        initialDom).1 ∧
    (submitHandler true
        (.resolved true ⟨"contract.pdf", 1, some [("a", ["s"])], none⟩)
        initialDom).1.indexOf .showLoading
      < (submitHandler true
        (.resolved true ⟨"contract.pdf", 1, some [("a", ["s"])], none⟩)
        initialDom).1.indexOf .hideError ∧
    (submitHandler true
        (.resolved true ⟨"contract.pdf", 1, some [("a", ["s"])], none⟩)
        initialDom).1.indexOf .showLoading
      < (submitHandler true
        (.resolved true ⟨"contract.pdf", 1, some [("a", ["s"])], none⟩)
        initialDom).1.indexOf .hideResults := by
  decide

/-- C8 amended: on every valid submission the handler's first four
operations are exactly `showLoading`, `hideError`, `hideResults`,
`fetchUpload` — the prior error banner and results panel are
unconditionally hidden immediately *after* the loading indicator is shown
and before the network call is issued. -/
theorem submit_hides_prior_state_before_fetch (outcome : FetchOutcome)
    (d : DomState) :
    (submitHandler true outcome d).1.take 4
      = [.showLoading, .hideError, .hideResults, .fetchUpload] ∧
    (submitHandler true outcome d).2.formVisible = d.formVisible := by
  cases outcome with
  | rejected m => exact ⟨rfl, rfl⟩
  | jsonRejected m => exact ⟨rfl, rfl⟩
  | resolved ok data =>
    cases ok with
    | false => exact ⟨rfl, rfl⟩
    | true =>
      rcases hdr : displayResults data
          (hideResults (hideError (showLoading d))) with ⟨d2, em⟩
      have hform : d2.formVisible = d.formVisible := by
        have h := (displayResults_untouched_fields data
          (hideResults (hideError (showLoading d)))).2.2.2
        rw [hdr] at h
        simpa [hideResults, hideError, showLoading] using h
      cases em with
      | none => simp [submitHandler, hdr, hideLoading, hform]
      | some em => simp [submitHandler, hdr, hideLoading, showError, hform]

/-- C9 counterexample: after a successful analysis (results panel shown)
a submission with no file selected calls only `showError`, leaving the
results panel visible next to the error banner while the form region is
never hidden at all — three of the four presentation regions are visible
at once, refuting the exactly-one-visible invariant. -/
theorem presentation_regions_not_mutually_exclusive :
    (submitHandler false (.rejected none)
        ((submitHandler true
          (.resolved true ⟨"contract.pdf", 1, some [("a", ["s"])], none⟩)
          initialDom).2)).2.errorVisible = true ∧
    (submitHandler false (.rejected none)
        ((submitHandler true
          (.resolved true ⟨"contract.pdf", 1, some [("a", ["s"])], none⟩)
          initialDom).2)).2.resultsVisible = true ∧
    (submitHandler false (.rejected none)
        ((submitHandler true
          (.resolved true ⟨"contract.pdf", 1, some [("a", ["s"])], none⟩)
          initialDom).2)).2.formVisible = true ∧
    visibleRegionCount (submitHandler false (.rejected none)
        ((submitHandler true
          (.resolved true ⟨"contract.pdf", 1, some [("a", ["s"])], none⟩)
          initialDom).2)).2 = 3 := by
  decide

/-- C9 amended: the exclusivity that does hold: after any submission that
passes validation, exactly one of the three status regions (loading
indicator, error banner, results panel) is visible, and the form region's
visibility is never changed by the handler (so the form stays visible
beside whichever status region is shown; moreover a validation failure
performs only `showError` and can leave a stale results panel visible next
to the error banner). -/
theorem valid_submission_one_status_region (outcome : FetchOutcome)
    (d : DomState) :
    visibleStatusRegionCount (submitHandler true outcome d).2 = 1 ∧
    (submitHandler true outcome d).2.formVisible = d.formVisible := by
  cases outcome with
  | rejected m =>
    exact ⟨rfl, rfl⟩
  | jsonRejected m =>
    exact ⟨rfl, rfl⟩
  | resolved ok data =>
    cases ok with
    | false => exact ⟨rfl, rfl⟩
    | true =>
      rcases hdr : displayResults data
          (hideResults (hideError (showLoading d))) with ⟨d2, em⟩
      have herr : d2.errorVisible = false := by
        have h := (displayResults_untouched_fields data
          (hideResults (hideError (showLoading d)))).1
        rw [hdr] at h
        simpa [hideResults, hideError, showLoading] using h
      have hform : d2.formVisible = d.formVisible := by
        have h := (displayResults_untouched_fields data
          (hideResults (hideError (showLoading d)))).2.2.2
        rw [hdr] at h
        simpa [hideResults, hideError, showLoading] using h
      have hres := displayResults_resultsVisible data
        (hideResults (hideError (showLoading d)))
      rw [hdr] at hres
      cases em with
      | none =>
        have hvis : d2.resultsVisible = true := by
          rcases hres with ⟨_, h⟩ | ⟨h, _⟩
          · exact h
          · exact absurd h (by simp)
        simp [submitHandler, hdr, visibleStatusRegionCount, hideLoading,
          herr, hvis, hform]
      | some em =>
        have hvis : d2.resultsVisible = false := by
          rcases hres with ⟨h, _⟩ | ⟨_, h⟩
          · exact absurd h (by simp)
          · simpa [hideResults, hideError, showLoading] using h
        simp [submitHandler, hdr, visibleStatusRegionCount, hideLoading,
          showError, herr, hvis, hform]

/-- C10: for every HTTP-success response with `total_clauses_found > 0`
but no clauses map, the renderer throws after writing the summary fields
and clearing the container; the submit handler catches the exception,
shows its message in the error banner, keeps the results panel hidden,
and still clears the loading state as its final operation. -/
theorem renderer_throw_caught_by_handler (data : ResponseData)
    (d : DomState) (hpos : 0 < data.total_clauses_found)
    (habs : data.clauses = none) :
    (submitHandler true (.resolved true data) d).2.errorVisible = true ∧
    (submitHandler true (.resolved true data) d).2.errorText
      = objectEntriesTypeErrorMsg ∧
    (submitHandler true (.resolved true data) d).2.loadingVisible = false ∧
    (submitHandler true (.resolved true data) d).2.analyzeBtnDisabled
      = false ∧
    (submitHandler true (.resolved true data) d).2.resultFileName
      = data.filename ∧
    (submitHandler true (.resolved true data) d).2.totalClausesText
      = toString data.total_clauses_found ∧
    (submitHandler true (.resolved true data) d).2.clausesContent
      = .html "" ∧
    (submitHandler true (.resolved true data) d).2.resultsVisible = false ∧
    (submitHandler true (.resolved true data) d).1.getLast?
      = some .hideLoading := by
  have hne : data.total_clauses_found ≠ 0 := Nat.pos_iff_ne_zero.mp hpos
  have hdr : displayResults data (hideResults (hideError (showLoading d)))
      = ({ hideResults (hideError (showLoading d)) with
            resultFileName := data.filename
            totalClausesText := toString data.total_clauses_found
            clausesContent := .html "" }, some objectEntriesTypeErrorMsg) := by
    simp [displayResults, hne, habs]
  refine ⟨?_, ?_, ?_, ?_, ?_, ?_, ?_, ?_, ?_⟩ <;>
    (simp [submitHandler, hdr, jsStringOr_some_objectEntriesTypeErrorMsg,
      hideLoading, showError]
     try simp [hideResults, hideError, showLoading])

/-- Witness for C10: a concrete success response with a positive total and
no clauses field. -/
theorem renderer_throw_caught_by_handler_witness :
    (0 : Nat) < 2 ∧
    ((⟨"contract.pdf", 2, none, none⟩ : ResponseData).clauses = none) ∧
    ((submitHandler true (.resolved true ⟨"contract.pdf", 2, none, none⟩)
        initialDom).2.errorVisible = true ∧
     (submitHandler true (.resolved true ⟨"contract.pdf", 2, none, none⟩)
        initialDom).2.errorText = objectEntriesTypeErrorMsg ∧
     (submitHandler true (.resolved true ⟨"contract.pdf", 2, none, none⟩)
        initialDom).2.loadingVisible = false ∧
     (submitHandler true (.resolved true ⟨"contract.pdf", 2, none, none⟩)
        initialDom).2.analyzeBtnDisabled = false ∧
     (submitHandler true (.resolved true ⟨"contract.pdf", 2, none, none⟩)
        initialDom).2.resultFileName = "contract.pdf" ∧
     (submitHandler true (.resolved true ⟨"contract.pdf", 2, none, none⟩)
        initialDom).2.totalClausesText = toString (2 : Nat) ∧
     (submitHandler true (.resolved true ⟨"contract.pdf", 2, none, none⟩)
        initialDom).2.clausesContent = .html "" ∧
     (submitHandler true (.resolved true ⟨"contract.pdf", 2, none, none⟩)
        initialDom).2.resultsVisible = false ∧
     (submitHandler true (.resolved true ⟨"contract.pdf", 2, none, none⟩)
        initialDom).1.getLast? = some .hideLoading) :=
  ⟨by decide, rfl,
    renderer_throw_caught_by_handler _ initialDom (by decide) rfl⟩

end LegalDocParser
